import Mathlib

/-!
Shallow embedding of `src/src/headers/tcp.rs` from `dns2utf8/packet_crafter`.

Machine integers (`u8`, `u16`, `u32`) are modelled as `Nat`; wherever the Rust
code can overflow or truncate, the reduction modulo `2^w` is written out
explicitly.  Panics are modelled by returning `Option`/`Except` values
(`none` = panic).  Byte buffers (`Vec<u8>`, `&[u8]`) are `List Nat`.
-/

/-- Modelled from the spec: the `AsBeBytes` byte-order codec
(`u16::split_to_bytes`) is not under `src/`; §4.1 of the spec specifies it as
"given an unsigned 16-bit integer, produce its two-byte big-endian
representation".  The first byte is the high byte, the second the low byte. -/
def split_to_bytes (v : Nat) : List Nat :=
  [v / 256 % 256, v % 256]

/-- Modelled from the spec: the decoding direction of the byte-order codec,
"given two bytes, reconstruct the integer"; `parse` spells the same
recombination inline as `((b0 as u16) << 8) + b1 as u16`. -/
def combine_be (bs : List Nat) : Nat :=
  (bs.getD 0 0) <<< 8 + bs.getD 1 0

/-- `PseudoHeader` from `src/src/headers/mod.rs` as used by `tcp.rs`:
source/destination IPv4 address (`[u8; 4]`, modelled as a 4-element list),
protocol number (`u8`) and total segment length (`u16`). -/
structure PseudoHeader where
  src_ip : List Nat
  dst_ip : List Nat
  protocol : Nat
  data_len : Nat
  deriving Repr, DecidableEq

/-- The `TcpHeader` struct (tcp.rs lines 4-12). -/
structure TcpHeader where
  src_port : Nat
  dst_port : Nat
  flags : Nat
  window : Nat
  pseudo_header : Option PseudoHeader
  pseudo_header_set : Bool
  deriving Repr, DecidableEq

/-- The `TcpFlags` enum (tcp.rs lines 14-21). -/
inductive TcpFlags where
  | Urg
  | Ack
  | Psh
  | Rst
  | Syn
  | Fin
  deriving Repr, DecidableEq

/-- The `ParseError` variants relevant to `parse` (from `headers/mod.rs`). -/
inductive ParseError where
  | InvalidLength
  deriving Repr, DecidableEq

/-- `TcpHeader::new` (tcp.rs lines 24-33). -/
def TcpHeader.new (src_port dst_port : Nat) : TcpHeader :=
  { src_port := src_port
    dst_port := dst_port
    window := 0xffff
    flags := 0
    pseudo_header := none
    pseudo_header_set := false }

/-- `TcpHeader::set_flag` (tcp.rs lines 35-44): bitwise OR of the flag's mask
onto the flag byte. -/
def TcpHeader.set_flag (h : TcpHeader) (f : TcpFlags) : TcpHeader :=
  match f with
  | .Urg => { h with flags := h.flags ||| 0b00100000 }
  | .Ack => { h with flags := h.flags ||| 0b00010000 }
  | .Psh => { h with flags := h.flags ||| 0b00001000 }
  | .Rst => { h with flags := h.flags ||| 0b00000100 }
  | .Syn => { h with flags := h.flags ||| 0b00000010 }
  | .Fin => { h with flags := h.flags ||| 0b00000001 }

/-- Modelled from the spec: the `AddSetter` derive on `TcpHeader` generates
plain field setters for the `#[set]` fields `src_port`, `dst_port`, `flags`,
`window` ("plain methods ... it carries no independent design weight"). -/
def TcpHeader.set_src_port (h : TcpHeader) (v : Nat) : TcpHeader :=
  { h with src_port := v }

/-- Modelled from the spec: generated setter for `dst_port`. -/
def TcpHeader.set_dst_port (h : TcpHeader) (v : Nat) : TcpHeader :=
  { h with dst_port := v }

/-- Modelled from the spec: generated setter for `flags`. -/
def TcpHeader.set_flags (h : TcpHeader) (v : Nat) : TcpHeader :=
  { h with flags := v }

/-- Modelled from the spec: generated setter for `window`. -/
def TcpHeader.set_window (h : TcpHeader) (v : Nat) : TcpHeader :=
  { h with window := v }

/-- `TransportHeader::set_pseudo_header` for TCP (tcp.rs lines 47-60).
`data_len` is a `u16`; the guard `data_len > 0xffff - 20` panics
(modelled as `none`), otherwise the pseudo-header is stored with
protocol 6 and total length `data_len + 20` (no truncation occurs since
`data_len ≤ 65515`), and `pseudo_header_set` becomes `true`. -/
def TcpHeader.set_pseudo_header (h : TcpHeader) (src_ip dst_ip : List Nat)
    (data_len : Nat) : Option TcpHeader :=
  if data_len > 0xffff - 20 then
    none
  else
    some { h with
      pseudo_header := some
        { src_ip := src_ip
          dst_ip := dst_ip
          protocol := 6
          data_len := data_len + 20 }
      pseudo_header_set := true }

/-- `ip_sum` (tcp.rs lines 139-142): sums the two big-endian 16-bit words of a
4-byte address into a `u32` accumulator. -/
def ip_sum (octets : List Nat) : Nat :=
  ((octets.getD 0 0) <<< 8 ||| octets.getD 1 0)
    + ((octets.getD 2 0) <<< 8 ||| octets.getD 3 0)

/-- The `while cs >> 16 != 0 { cs = (cs >> 16) + (cs & 0xFFFF) }` loop inside
`finalize_checksum` (tcp.rs lines 146-148). -/
def foldCarry (cs : Nat) : Nat :=
  if h : cs >>> 16 = 0 then
    cs
  else
    foldCarry ((cs >>> 16) + (cs &&& 0xFFFF))
termination_by cs
decreasing_by
  have h16 : (65535 : Nat) = 2 ^ 16 - 1 := rfl
  have hmask : cs &&& 0xFFFF = cs % 2 ^ 16 := by
    show cs &&& 65535 = cs % 2 ^ 16
    rw [h16, Nat.and_pow_two_sub_one_eq_mod]
  have hdiv : cs >>> 16 = cs / 2 ^ 16 := Nat.shiftRight_eq_div_pow cs 16
  rw [hmask, hdiv]
  rw [hdiv] at h
  have h1 : 1 ≤ cs / 2 ^ 16 := Nat.one_le_iff_ne_zero.mpr h
  omega

/-- `finalize_checksum` (tcp.rs lines 144-150): fold the carries, then return
`!cs as u16`, the bitwise NOT of the low 16 bits.  Since `foldCarry` always
returns a value `< 2^16` (the loop exits only when `cs >> 16 = 0`), the
16-bit bitwise NOT of that value is `65535 - foldCarry cs`. -/
def finalize_checksum (cs : Nat) : Nat :=
  65535 - foldCarry cs

/-- `Header::get_min_length` for TCP (tcp.rs lines 130-132). -/
def get_min_length : Nat := 20

/-- `Header::get_length` for TCP (tcp.rs lines 126-128). -/
def TcpHeader.get_length (_h : TcpHeader) : Nat := 20

/-- `Header::make` for TCP (tcp.rs lines 63-106).  Builds the 20-byte packet,
panics (`none`) when no pseudo-header is bound, otherwise accumulates
`ip_sum(src) + ip_sum(dst) + protocol + data_len` (a `u32` sum that cannot
reach `2^32`), finalizes the checksum and writes its two bytes at
positions 16 and 17. -/
def TcpHeader.make (h : TcpHeader) : Option (List Nat) :=
  let src_p := split_to_bytes h.src_port
  let dst_p := split_to_bytes h.dst_port
  let window_bytes := split_to_bytes h.window
  let packet : List Nat :=
    [src_p.getD 0 0, src_p.getD 1 0,
     dst_p.getD 0 0, dst_p.getD 1 0,
     0, 0, 0, 0,  -- Seq num
     0, 0, 0, 0,  -- Ack num
     0,           -- Offset + reserved bits
     h.flags,
     window_bytes.getD 0 0, window_bytes.getD 1 0,
     0, 0,
     0, 0]        -- Urgent Pointer
  match h.pseudo_header with
  | none => none  -- panic: pseudo header not set
  | some pseudo_header =>
    let val := ip_sum pseudo_header.src_ip + ip_sum pseudo_header.dst_ip
      + pseudo_header.protocol + pseudo_header.data_len
    let checksum := split_to_bytes (finalize_checksum val)
    some ((packet.set 16 (checksum.getD 0 0)).set 17 (checksum.getD 1 0))

/-- `Header::parse` for TCP (tcp.rs lines 108-120). -/
def TcpHeader.parse (raw_data : List Nat) : Except ParseError TcpHeader :=
  if raw_data.length < get_min_length then
    .error .InvalidLength
  else
    .ok
      { src_port := (raw_data.getD 0 0) <<< 8 + raw_data.getD 1 0
        dst_port := (raw_data.getD 2 0) <<< 8 + raw_data.getD 3 0
        flags := raw_data.getD 13 0
        window := (raw_data.getD 14 0) <<< 8 + raw_data.getD 15 0
        pseudo_header := none
        pseudo_header_set := false }

/-! ### Spec-side reference definitions

These follow the spec's words, for comparison with the embedded code:
"Checksum input (not transmitted, computed only): source address (4B) +
destination address (4B) + protocol number (6 for TCP) + total segment
length (2B) + the 20 header bytes themselves (with checksum field treated
as zero during computation), summed as 16-bit words with carry-fold, then
one's-complemented." -/

/-- Spec-side: sum a byte sequence as big-endian 16-bit words. -/
def sumWords : List Nat → Nat
  | b0 :: b1 :: rest => (b0 * 256 + b1) + sumWords rest
  | [b0] => b0 * 256
  | [] => 0

/-- Spec-side: the RFC 1071 reference checksum over the pseudo-header fields
(source address as two 16-bit words, destination address as two 16-bit words,
protocol number, total segment length) and the given header bytes (to be
supplied with the checksum field zeroed), carry-folded and complemented. -/
def spec_rfc1071_checksum (p : PseudoHeader) (headerBytes : List Nat) : Nat :=
  finalize_checksum (sumWords p.src_ip + sumWords p.dst_ip
    + p.protocol + p.data_len + sumWords headerBytes)

/-- Spec-side: the bit position each TCP flag occupies according to the
spec's layout table ("flags (bit0=FIN,1=SYN,2=RST,3=PSH,4=ACK,5=URG)"). -/
def spec_flag_bit : TcpFlags → Nat
  | .Fin => 0
  | .Syn => 1
  | .Rst => 2
  | .Psh => 3
  | .Ack => 4
  | .Urg => 5

/-- The concrete scenario of the spec's §8: `TcpHeader::new(443, 51000)`,
flag `Syn` set, pseudo-header bound with src `[10,0,0,1]`, dst `[10,0,0,2]`,
payload length 0. -/
def scenario_header : Option TcpHeader :=
  ((TcpHeader.new 443 51000).set_flag TcpFlags.Syn).set_pseudo_header
    [10, 0, 0, 1] [10, 0, 0, 2] 0

/-- The packet the code produces for the spec's §8 scenario. -/
def scenario_packet : Option (List Nat) :=
  scenario_header.bind TcpHeader.make

/-- The headers reachable through the public operations: `new`, successful
`parse`, `set_flag`, the generated field setters, and successful
`set_pseudo_header`. -/
inductive ReachableTcpHeader : TcpHeader → Prop where
  | of_new : ∀ s d, ReachableTcpHeader (TcpHeader.new s d)
  | of_parse : ∀ raw h, TcpHeader.parse raw = .ok h → ReachableTcpHeader h
  | of_set_flag : ∀ h f, ReachableTcpHeader h →
      ReachableTcpHeader (h.set_flag f)
  | of_set_src_port : ∀ h v, ReachableTcpHeader h →
      ReachableTcpHeader (h.set_src_port v)
  | of_set_dst_port : ∀ h v, ReachableTcpHeader h →
      ReachableTcpHeader (h.set_dst_port v)
  | of_set_flags : ∀ h v, ReachableTcpHeader h →
      ReachableTcpHeader (h.set_flags v)
  | of_set_window : ∀ h v, ReachableTcpHeader h →
      ReachableTcpHeader (h.set_window v)
  | of_set_pseudo_header : ∀ h src dst len h', ReachableTcpHeader h →
      h.set_pseudo_header src dst len = some h' → ReachableTcpHeader h'

/-! ### Helper lemmas

The carry-fold loop is a well-founded recursion, which the kernel cannot
evaluate definitionally; all concrete values of `foldCarry` are therefore
established by explicit rewriting with the two unfolding lemmas below. -/

lemma foldCarry_base {cs : Nat} (h : cs < 65536) : foldCarry cs = cs := by
  rw [foldCarry]
  have h0 : cs >>> 16 = 0 := by
    rw [Nat.shiftRight_eq_div_pow]
    omega
  simp [h0]

lemma foldCarry_step {cs : Nat} (h : cs >>> 16 ≠ 0) :
    foldCarry cs = foldCarry ((cs >>> 16) + (cs &&& 0xFFFF)) := by
  rw [foldCarry]
  simp [h]

lemma foldCarry_lt (cs : Nat) : foldCarry cs < 65536 := by
  induction cs using foldCarry.induct with
  | case1 cs h =>
    rw [foldCarry_base]
    all_goals rw [Nat.shiftRight_eq_div_pow] at h; omega
  | case2 cs h ih =>
    rw [foldCarry_step h]
    exact ih

lemma foldCarry_mod (cs : Nat) : foldCarry cs % 65535 = cs % 65535 := by
  induction cs using foldCarry.induct with
  | case1 cs h =>
    rw [foldCarry_base (by rw [Nat.shiftRight_eq_div_pow] at h; omega)]
  | case2 cs h ih =>
    rw [foldCarry_step h, ih]
    have hmask : cs &&& 0xFFFF = cs % 2 ^ 16 := by
      show cs &&& 65535 = cs % 2 ^ 16
      rw [show (65535 : Nat) = 2 ^ 16 - 1 from rfl, Nat.and_pow_two_sub_one_eq_mod]
    rw [hmask, Nat.shiftRight_eq_div_pow]
    omega

/-- Unfolding of `make` when a pseudo-header is bound: the checksum argument
is kept symbolic so that the carry-fold loop is never reduced definitionally. -/
lemma make_eq (h : TcpHeader) (p : PseudoHeader)
    (hp : h.pseudo_header = some p) :
    h.make = some
      (([(split_to_bytes h.src_port).getD 0 0, (split_to_bytes h.src_port).getD 1 0,
         (split_to_bytes h.dst_port).getD 0 0, (split_to_bytes h.dst_port).getD 1 0,
         0, 0, 0, 0, 0, 0, 0, 0, 0, h.flags,
         (split_to_bytes h.window).getD 0 0, (split_to_bytes h.window).getD 1 0,
         0, 0, 0, 0].set 16
          ((split_to_bytes (finalize_checksum (ip_sum p.src_ip + ip_sum p.dst_ip
            + p.protocol + p.data_len))).getD 0 0)).set 17
          ((split_to_bytes (finalize_checksum (ip_sum p.src_ip + ip_sum p.dst_ip
            + p.protocol + p.data_len))).getD 1 0)) := by
  unfold TcpHeader.make
  rw [hp]

/-- `make` with the pseudo-header word sum and checksum bytes evaluated. -/
lemma make_eq_val (h : TcpHeader) (p : PseudoHeader)
    (hp : h.pseudo_header = some p) (v c0 c1 : Nat)
    (hv : ip_sum p.src_ip + ip_sum p.dst_ip + p.protocol + p.data_len = v)
    (hc : split_to_bytes (finalize_checksum v) = [c0, c1]) :
    h.make = some
      [(split_to_bytes h.src_port).getD 0 0, (split_to_bytes h.src_port).getD 1 0,
       (split_to_bytes h.dst_port).getD 0 0, (split_to_bytes h.dst_port).getD 1 0,
       0, 0, 0, 0, 0, 0, 0, 0, 0, h.flags,
       (split_to_bytes h.window).getD 0 0, (split_to_bytes h.window).getD 1 0,
       c0, c1, 0, 0] := by
  rw [make_eq h p hp, hv, hc]
  rfl

/-- Evaluation of the carry-fold loop at 5149, the pseudo-header word sum of
the spec's §8 scenario (no carry to fold). -/
lemma foldCarry_5149 : foldCarry 5149 = 5149 :=
  foldCarry_base (by norm_num)

/-- Checksum bytes the code produces for the scenario: `!5149 = 60386`,
big-endian `[235, 226]`. -/
lemma checksum_bytes_5149 :
    split_to_bytes (finalize_checksum 5149) = [235, 226] := by
  rw [finalize_checksum]
  rw [foldCarry_5149]
  decide

/-- Evaluation of the carry-fold loop at 122129, the RFC 1071 word sum of the
scenario (pseudo-header words plus the 20 zero-checksum header bytes); one
fold step produces a new carry (`122129 → 65536 → 1`), leaving 56594. -/
lemma foldCarry_122129 : foldCarry 122129 = 56594 := by
  rw [foldCarry_step (by decide), show (122129 : Nat) >>> 16 = 1 from rfl,
    show (122129 : Nat) &&& 0xFFFF = 56593 from rfl, foldCarry_base (by norm_num)]

/-- The RFC 1071 reference checksum of the scenario: `!56594 = 8941`. -/
lemma spec_checksum_122129 : finalize_checksum 122129 = 8941 := by
  rw [finalize_checksum]
  rw [foldCarry_122129]

/-- The §8 scenario header, written out. -/
lemma scenario_header_eq :
    scenario_header = some
      { src_port := 443, dst_port := 51000, flags := 2, window := 65535
        pseudo_header := some ⟨[10,0,0,1], [10,0,0,2], 6, 20⟩
        pseudo_header_set := true } := rfl

/-- The packet the scenario produces, with the checksum bytes the code
computes from the pseudo-header words alone. -/
lemma scenario_packet_eq :
    scenario_packet = some [1, 187, 199, 56, 0, 0, 0, 0, 0, 0, 0, 0,
      0, 2, 255, 255, 235, 226, 0, 0] := by
  unfold scenario_packet
  rw [scenario_header_eq]
  show TcpHeader.make
    { src_port := 443, dst_port := 51000, flags := 2, window := 65535
      pseudo_header := some ⟨[10,0,0,1], [10,0,0,2], 6, 20⟩
      pseudo_header_set := true } = _
  rw [make_eq_val _ ⟨[10,0,0,1], [10,0,0,2], 6, 20⟩ rfl 5149 235 226
    (by decide) checksum_bytes_5149]
  rfl

/-- The spec-side RFC 1071 checksum over the scenario pseudo-header and the
zero-checksum header bytes is 8941. -/
lemma scenario_spec_checksum_eq :
    spec_rfc1071_checksum ⟨[10,0,0,1], [10,0,0,2], 6, 20⟩
      [1, 187, 199, 56, 0, 0, 0, 0, 0, 0, 0, 0, 0, 2, 255, 255, 0, 0, 0, 0]
      = 8941 := by
  show finalize_checksum 122129 = 8941
  exact spec_checksum_122129

/-- `parse` evaluated on an explicit 20-byte buffer. -/
lemma parse_list20 (b0 b1 b2 b3 b4 b5 b6 b7 b8 b9 b10 b11 b12 b13 b14 b15
    b16 b17 b18 b19 : Nat) :
    TcpHeader.parse [b0, b1, b2, b3, b4, b5, b6, b7, b8, b9, b10, b11, b12,
      b13, b14, b15, b16, b17, b18, b19] =
    .ok { src_port := b0 <<< 8 + b1, dst_port := b2 <<< 8 + b3, flags := b13
          window := b14 <<< 8 + b15
          pseudo_header := none, pseudo_header_set := false } := by
  unfold TcpHeader.parse get_min_length
  norm_num [List.getD]

/-! ### The claims -/

/-- Claim C1 (refuted by evaluation, a code bug): at the spec's own scenario
input the checksum bytes `make` writes are `[235, 226]` — computed from the
pseudo-header words alone — while the RFC 1071 reference over the
pseudo-header AND the 20 header bytes (checksum field treated as zero) gives
`[34, 237]`: the code never adds the header words (the `// checksum over
data` comment in tcp.rs line 100 is followed by no such code). -/
theorem make_checksum_omits_header_words :
    (scenario_packet.map fun p => [p.getD 16 0, p.getD 17 0])
      = some [235, 226] ∧
    split_to_bytes (spec_rfc1071_checksum ⟨[10,0,0,1], [10,0,0,2], 6, 20⟩
        (((scenario_packet.getD []).set 16 0).set 17 0)) = [34, 237] ∧
    ([235, 226] : List Nat) ≠ [34, 237] := by
  rw [scenario_packet_eq]
  refine ⟨rfl, ?_, by decide⟩
  show split_to_bytes (spec_rfc1071_checksum ⟨[10,0,0,1], [10,0,0,2], 6, 20⟩
    [1, 187, 199, 56, 0, 0, 0, 0, 0, 0, 0, 0, 0, 2, 255, 255, 0, 0, 0, 0])
    = [34, 237]
  rw [scenario_spec_checksum_eq]
  decide

/-- Claim C2: `make` fails fatally (returns `none`, the model of a panic)
exactly when no pseudo-header is bound, and in that case returns no packet
at all — never one with a zero or garbage checksum. -/
theorem make_panics_iff_unbound (h : TcpHeader) :
    h.make = none ↔ h.pseudo_header = none := by
  unfold TcpHeader.make
  cases h.pseudo_header <;> simp

/-- Witness for C2 at a fresh header (unbound pseudo-header). -/
theorem make_panics_iff_unbound_witness :
    (TcpHeader.new 443 51000).make = none :=
  (make_panics_iff_unbound (TcpHeader.new 443 51000)).mpr rfl

/-- Claim C3: `set_pseudo_header` fails fatally (returns `none`, the model of
a panic) exactly when `payload_length + 20 > 65535`; on success the stored
pseudo-header carries the given addresses, protocol number 6 and total
length `payload_length + 20`, and the ports, flags and window of the header
are unchanged. -/
theorem set_pseudo_header_contract (h : TcpHeader) (src dst : List Nat)
    (len : Nat) :
    (h.set_pseudo_header src dst len = none ↔ 65535 < len + 20) ∧
    (∀ h', h.set_pseudo_header src dst len = some h' →
      h'.pseudo_header = some ⟨src, dst, 6, len + 20⟩ ∧
      h'.pseudo_header_set = true ∧
      h'.src_port = h.src_port ∧ h'.dst_port = h.dst_port ∧
      h'.flags = h.flags ∧ h'.window = h.window) := by
  unfold TcpHeader.set_pseudo_header
  constructor
  · constructor
    · intro he
      by_contra hlt
      simp only [show ¬ len > 0xffff - 20 by omega, if_false] at he
      exact (Option.some_ne_none _) he
    · intro hlt
      simp only [show len > 0xffff - 20 by omega, if_true]
  · intro h' he
    have hle : ¬ len > 0xffff - 20 := by
      by_contra hgt
      simp only [hgt, if_true] at he
      exact (Option.noConfusion he)
    simp only [hle, if_false, Option.some.injEq] at he
    subst he
    simp

/-- Witness for C3 at a concrete header, addresses and payload length 100. -/
theorem set_pseudo_header_contract_witness :
    ((TcpHeader.new 7 9).set_pseudo_header [1,2,3,4] [5,6,7,8] 100 = none ↔
      (65535 : Nat) < 100 + 20) ∧
    ((TcpHeader.mk 7 9 0 65535 (some ⟨[1,2,3,4], [5,6,7,8], 6, 120⟩)
        true).pseudo_header = some ⟨[1,2,3,4], [5,6,7,8], 6, 120⟩ ∧
      (TcpHeader.mk 7 9 0 65535 (some ⟨[1,2,3,4], [5,6,7,8], 6, 120⟩)
        true).pseudo_header_set = true ∧
      (TcpHeader.mk 7 9 0 65535 (some ⟨[1,2,3,4], [5,6,7,8], 6, 120⟩)
        true).src_port = (TcpHeader.new 7 9).src_port ∧
      (TcpHeader.mk 7 9 0 65535 (some ⟨[1,2,3,4], [5,6,7,8], 6, 120⟩)
        true).dst_port = (TcpHeader.new 7 9).dst_port ∧
      (TcpHeader.mk 7 9 0 65535 (some ⟨[1,2,3,4], [5,6,7,8], 6, 120⟩)
        true).flags = (TcpHeader.new 7 9).flags ∧
      (TcpHeader.mk 7 9 0 65535 (some ⟨[1,2,3,4], [5,6,7,8], 6, 120⟩)
        true).window = (TcpHeader.new 7 9).window) :=
  ⟨(set_pseudo_header_contract (TcpHeader.new 7 9) [1,2,3,4] [5,6,7,8] 100).1,
   (set_pseudo_header_contract (TcpHeader.new 7 9) [1,2,3,4] [5,6,7,8] 100).2
     (TcpHeader.mk 7 9 0 65535 (some ⟨[1,2,3,4], [5,6,7,8], 6, 120⟩) true)
     (by decide)⟩

/-- Claim C4: `get_min_length` is the constant 20; `parse` fails with
`InvalidLength` exactly on buffers shorter than 20 bytes; on buffers of
length at least 20 it succeeds and its result depends only on the first 20
bytes (it never reads past index 19). -/
theorem parse_length_contract (raw : List Nat) :
    get_min_length = 20 ∧
    (TcpHeader.parse raw = .error .InvalidLength ↔ raw.length < 20) ∧
    (20 ≤ raw.length → (TcpHeader.parse raw).isOk = true ∧
      TcpHeader.parse raw = TcpHeader.parse (raw.take 20)) := by
  refine ⟨rfl, ?_, ?_⟩
  · unfold TcpHeader.parse get_min_length
    by_cases hl : raw.length < 20
    · simp [hl]
    · simp [hl]
  · intro hl
    have hl' : ¬ raw.length < 20 := by omega
    have htl : ¬ (raw.take 20).length < 20 := by
      simp [List.length_take]
      omega
    have hg : ∀ i, i < 20 → (raw.take 20).getD i 0 = raw.getD i 0 := by
      intro i hi
      simp [List.getD_eq_getElem?_getD, List.getElem?_take, hi]
    unfold TcpHeader.parse get_min_length
    simp only [hl', htl, if_false]
    refine ⟨rfl, ?_⟩
    simp [hg 0 (by norm_num), hg 1 (by norm_num), hg 2 (by norm_num),
      hg 3 (by norm_num), hg 13 (by norm_num), hg 14 (by norm_num),
      hg 15 (by norm_num)]

/-- Witness for C4 at a 21-byte buffer. -/
theorem parse_length_contract_witness :
    (20 : Nat) ≤ (List.replicate 21 7).length ∧
    ((TcpHeader.parse (List.replicate 21 7)).isOk = true ∧
      TcpHeader.parse (List.replicate 21 7) =
        TcpHeader.parse ((List.replicate 21 7).take 20)) :=
  ⟨by decide, (parse_length_contract (List.replicate 21 7)).2.2 (by decide)⟩

/-- Claim C5 (evaluation at the spec's §8 scenario, exposing a code bug): the
produced packet has the specified layout — ports `[1,187]`/`[199,56]`, zero
fills, flag byte 2, window `[255,255]`, zero urgent pointer — but its
checksum bytes come from `finalize_checksum` of the pseudo-header words
alone (sum 5149, complement 60386, bytes `[235, 226]`), not the RFC 1071
reference value 8941 (bytes `[34, 237]`) over the pseudo-header plus the
zero-checksum header bytes. -/
theorem scenario_make_bytes :
    scenario_packet = some [1, 187, 199, 56, 0, 0, 0, 0, 0, 0, 0, 0,
      0, 2, 255, 255, 235, 226, 0, 0] ∧
    finalize_checksum (ip_sum [10,0,0,1] + ip_sum [10,0,0,2] + 6 + 20)
      = 60386 ∧
    split_to_bytes 60386 = [235, 226] ∧
    spec_rfc1071_checksum ⟨[10,0,0,1], [10,0,0,2], 6, 20⟩
      [1, 187, 199, 56, 0, 0, 0, 0, 0, 0, 0, 0, 0, 2, 255, 255, 0, 0, 0, 0]
      = 8941 ∧
    split_to_bytes 8941 = [34, 237] ∧
    (60386 : Nat) ≠ 8941 := by
  refine ⟨scenario_packet_eq, ?_, by decide, scenario_spec_checksum_eq,
    by decide, by decide⟩
  rw [show ip_sum [10,0,0,1] + ip_sum [10,0,0,2] + 6 + 20 = 5149 from by decide]
  rw [finalize_checksum]
  rw [foldCarry_5149]

/-- Claim C6: for every 32-bit accumulator value, the carry-fold loop of
`finalize_checksum` reaches a value with no overflow left (`>>> 16 = 0`,
i.e. `< 2^16`) that is congruent to the input modulo `2^16 - 1` (the
end-around-carry specification, covering inputs where a fold step produces
a new carry), and the returned value is the bitwise NOT of those low
16 bits (their sum is `0xFFFF`). -/
theorem finalize_checksum_folds_carries (cs : Nat) (h : cs < 4294967296) :
    foldCarry cs >>> 16 = 0 ∧ foldCarry cs < 65536 ∧
    foldCarry cs % 65535 = cs % 65535 ∧
    finalize_checksum cs + foldCarry cs = 65535 := by
  have hlt := foldCarry_lt cs
  refine ⟨?_, hlt, foldCarry_mod cs, ?_⟩
  · rw [Nat.shiftRight_eq_div_pow]
    omega
  · unfold finalize_checksum
    omega

/-- Witness for C6 at `cs = 0x1FFFF`, an input whose first fold step
produces a new carry (`0x1FFFF → 0x10000 → 0x1`). -/
theorem finalize_checksum_folds_carries_witness :
    (131071 : Nat) < 4294967296 ∧
    (foldCarry 131071 >>> 16 = 0 ∧ foldCarry 131071 < 65536 ∧
     foldCarry 131071 % 65535 = 131071 % 65535 ∧
     finalize_checksum 131071 + foldCarry 131071 = 65535) :=
  ⟨by norm_num, finalize_checksum_folds_carries 131071 (by norm_num)⟩

/-- Claim C7: `set_flag` ORs exactly the mask `2 ^ bit` of the flag
(bit0 = FIN, bit1 = SYN, bit2 = RST, bit3 = PSH, bit4 = ACK, bit5 = URG)
onto the flag byte, is idempotent, never clears an already-set bit, and on
a fresh header setting `Syn` then `Ack` yields flag byte `0b00010010`. -/
theorem set_flag_or_mask (h : TcpHeader) (f : TcpFlags) :
    ((h.set_flag f).flags = h.flags ||| 2 ^ spec_flag_bit f) ∧
    ((h.set_flag f).set_flag f = h.set_flag f) ∧
    (∀ i, h.flags.testBit i = true → ((h.set_flag f).flags).testBit i = true) ∧
    (∀ s d : Nat,
      (((TcpHeader.new s d).set_flag TcpFlags.Syn).set_flag TcpFlags.Ack).flags
        = 0b00010010) := by
  refine ⟨?_, ?_, ?_, ?_⟩
  · cases f <;> simp [TcpHeader.set_flag, spec_flag_bit]
  · cases f <;>
      simp [TcpHeader.set_flag, Nat.or_assoc, Nat.or_self]
  · intro i hi
    cases f <;> simp [TcpHeader.set_flag, Nat.testBit_or, hi]
  · intro s d
    simp [TcpHeader.new, TcpHeader.set_flag]

/-- Witness for C7: the already-set SYN bit (bit 1) survives setting ACK on
the scenario header. -/
theorem set_flag_or_mask_witness :
    ((((TcpHeader.new 443 51000).set_flag TcpFlags.Syn).set_flag
        TcpFlags.Ack).flags.testBit 1 = true) :=
  (set_flag_or_mask ((TcpHeader.new 443 51000).set_flag TcpFlags.Syn)
    TcpFlags.Ack).2.2.1 1 (by decide)

/-- Claim C8: for buffers of length at least 20, the result of `parse`
depends only on bytes 0-3 and 13-15 — in particular two buffers differing
only in the checksum bytes 16-17 parse identically, so `parse` never
verifies the embedded checksum — and the parsed header never has a
pseudo-header bound. -/
theorem parse_depends_only_on_used_bytes (raw1 raw2 : List Nat)
    (h1 : 20 ≤ raw1.length) (h2 : 20 ≤ raw2.length)
    (e0 : raw1.getD 0 0 = raw2.getD 0 0) (e1 : raw1.getD 1 0 = raw2.getD 1 0)
    (e2 : raw1.getD 2 0 = raw2.getD 2 0) (e3 : raw1.getD 3 0 = raw2.getD 3 0)
    (e13 : raw1.getD 13 0 = raw2.getD 13 0)
    (e14 : raw1.getD 14 0 = raw2.getD 14 0)
    (e15 : raw1.getD 15 0 = raw2.getD 15 0) :
    TcpHeader.parse raw1 = TcpHeader.parse raw2 ∧
    (∀ h, TcpHeader.parse raw1 = .ok h →
      h.pseudo_header = none ∧ h.pseudo_header_set = false) := by
  have hl1 : ¬ raw1.length < 20 := by omega
  have hl2 : ¬ raw2.length < 20 := by omega
  simp only [List.getD_eq_getElem?_getD] at e0 e1 e2 e3 e13 e14 e15
  constructor
  · unfold TcpHeader.parse get_min_length
    simp [hl1, hl2, List.getD_eq_getElem?_getD, e0, e1, e2, e3, e13, e14, e15]
  · intro h hp
    unfold TcpHeader.parse get_min_length at hp
    simp only [hl1, if_false, Except.ok.injEq] at hp
    subst hp
    exact ⟨rfl, rfl⟩

/-- Witness for C8: two concrete 20-byte buffers that differ only in the
checksum bytes 16-17 parse to the same header, which has no pseudo-header. -/
theorem parse_depends_only_on_used_bytes_witness :
    TcpHeader.parse [1,187,199,56,0,0,0,0,0,0,0,0,0,2,255,255,235,226,0,0] =
      TcpHeader.parse [1,187,199,56,0,0,0,0,0,0,0,0,0,2,255,255,99,42,0,0] ∧
    (∀ h, TcpHeader.parse
        [1,187,199,56,0,0,0,0,0,0,0,0,0,2,255,255,235,226,0,0] = .ok h →
      h.pseudo_header = none ∧ h.pseudo_header_set = false) :=
  parse_depends_only_on_used_bytes
    [1,187,199,56,0,0,0,0,0,0,0,0,0,2,255,255,235,226,0,0]
    [1,187,199,56,0,0,0,0,0,0,0,0,0,2,255,255,99,42,0,0]
    (by decide) (by decide) (by decide) (by decide) (by decide) (by decide)
    (by decide) (by decide) (by decide)

/-- Claim C9: decoding the two-byte big-endian encoding of any 16-bit value
recombines to the value itself, and consequently `parse` recovers the
source port, destination port, flags and window of any header serialized by
`make` (with a bound pseudo-header) exactly. -/
theorem be_roundtrip_parse_make :
    (∀ v : Nat, v < 65536 → combine_be (split_to_bytes v) = v) ∧
    (∀ h : TcpHeader, h.src_port < 65536 → h.dst_port < 65536 →
      h.flags < 256 → h.window < 65536 →
      ∀ pkt, h.make = some pkt →
        TcpHeader.parse pkt = .ok
          { src_port := h.src_port, dst_port := h.dst_port, flags := h.flags
            window := h.window
            pseudo_header := none, pseudo_header_set := false }) := by
  have hsplit : ∀ v : Nat, v < 65536 →
      (v / 256 % 256) <<< 8 + v % 256 = v := by
    intro v hv
    rw [Nat.shiftLeft_eq]
    omega
  constructor
  · intro v hv
    show (v / 256 % 256) <<< 8 + v % 256 = v
    exact hsplit v hv
  · intro h hs hd hf hw pkt hmk
    cases hp : h.pseudo_header with
    | none =>
      unfold TcpHeader.make at hmk
      rw [hp] at hmk
      exact absurd hmk (by simp)
    | some p =>
      rw [make_eq h p hp] at hmk
      simp only [Option.some.injEq] at hmk
      subst hmk
      show TcpHeader.parse
        [(split_to_bytes h.src_port).getD 0 0, (split_to_bytes h.src_port).getD 1 0,
         (split_to_bytes h.dst_port).getD 0 0, (split_to_bytes h.dst_port).getD 1 0,
         0, 0, 0, 0, 0, 0, 0, 0, 0, h.flags,
         (split_to_bytes h.window).getD 0 0, (split_to_bytes h.window).getD 1 0,
         (split_to_bytes (finalize_checksum (ip_sum p.src_ip + ip_sum p.dst_ip
           + p.protocol + p.data_len))).getD 0 0,
         (split_to_bytes (finalize_checksum (ip_sum p.src_ip + ip_sum p.dst_ip
           + p.protocol + p.data_len))).getD 1 0,
         0, 0] = _
      rw [parse_list20]
      simp only [split_to_bytes, List.getD_cons_zero, List.getD_cons_succ,
        Except.ok.injEq, TcpHeader.mk.injEq, and_true, true_and]
      exact ⟨hsplit h.src_port hs, hsplit h.dst_port hd, hsplit h.window hw⟩

/-- Witness for C9: the round-trip at `v = 51000`, and `parse` recovering the
fields of a concrete bound header whose `make` output is computed (word sum
29, checksum bytes `[255, 226]`). -/
theorem be_roundtrip_parse_make_witness :
    combine_be (split_to_bytes 51000) = 51000 ∧
    TcpHeader.parse [0, 1, 0, 2, 0, 0, 0, 0, 0, 0, 0, 0, 0, 0, 0, 3,
        255, 226, 0, 0] = .ok
      { src_port := 1, dst_port := 2, flags := 0, window := 3
        pseudo_header := none, pseudo_header_set := false } := by
  have hH : (TcpHeader.mk 1 2 0 3 (some ⟨[0,0,0,1], [0,0,0,2], 6, 20⟩)
      true).make
      = some [0, 1, 0, 2, 0, 0, 0, 0, 0, 0, 0, 0, 0, 0, 0, 3,
        255, 226, 0, 0] := by
    rw [make_eq_val _ ⟨[0,0,0,1], [0,0,0,2], 6, 20⟩ rfl 29 255 226 (by decide)
      (by rw [finalize_checksum, foldCarry_base (by norm_num)]; decide)]
    rfl
  exact ⟨be_roundtrip_parse_make.1 51000 (by norm_num),
    be_roundtrip_parse_make.2 _ (by norm_num) (by norm_num) (by norm_num)
      (by norm_num) _ hH⟩

/-- Claim C10: in every header reachable through the public operations
(`new`, `parse`, `set_flag`, the field setters, `set_pseudo_header`), the
`pseudo_header_set` flag agrees with the presence of the optional
`pseudo_header` field: no operation changes one without the other. -/
theorem pseudo_header_flag_consistent (h : TcpHeader)
    (hr : ReachableTcpHeader h) :
    h.pseudo_header_set = h.pseudo_header.isSome := by
  induction hr with
  | of_new s d => rfl
  | of_parse raw h hp =>
    unfold TcpHeader.parse at hp
    by_cases hl : raw.length < get_min_length
    · simp [hl] at hp
    · simp only [hl, if_false, Except.ok.injEq] at hp
      subst hp
      rfl
  | of_set_flag h f _ ih =>
    cases f <;> simpa [TcpHeader.set_flag] using ih
  | of_set_src_port h v _ ih => simpa [TcpHeader.set_src_port] using ih
  | of_set_dst_port h v _ ih => simpa [TcpHeader.set_dst_port] using ih
  | of_set_flags h v _ ih => simpa [TcpHeader.set_flags] using ih
  | of_set_window h v _ ih => simpa [TcpHeader.set_window] using ih
  | of_set_pseudo_header h src dst len h' _ hset ih =>
    unfold TcpHeader.set_pseudo_header at hset
    by_cases hlen : len > 0xffff - 20
    · simp [hlen] at hset
    · simp only [hlen, if_false, Option.some.injEq] at hset
      subst hset
      rfl

/-- Witness for C10: the invariant at a freshly constructed header. -/
theorem pseudo_header_flag_consistent_witness :
    (TcpHeader.new 80 8080).pseudo_header_set =
      (TcpHeader.new 80 8080).pseudo_header.isSome :=
  pseudo_header_flag_consistent (TcpHeader.new 80 8080)
    (ReachableTcpHeader.of_new 80 8080)
